import Mathlib

/-
  Verification of the crm-gbi-whatsapp frontend client and of the
  spec-described conversation lifecycle.

  Shallow embedding of:
  - frontend/src/hooks/useWebSocket.js  (connection, heartbeat, reconnect)
  - frontend/src/pages/Dashboard.jsx    (event handler, queue badge, polling)
  - frontend/src/services/api.js        (auth interceptor, read-side defaults)
  - the conversation claim/resolve operations described by the design spec
    (their backend implementation is not part of the frontend sources).
-/

namespace CrmGbi

/-- A JavaScript value as it occurs in the id / route slots of the client:
a number, a string, or `undefined` (absent field / optional chaining miss). -/
inductive JsVal where
  | num (n : Int)
  | str (s : String)
  | undef
deriving DecidableEq, Repr

/-- JavaScript `String(v)` on the values above. -/
def JsVal.toStr : JsVal → String
  | .num n => toString n
  | .str s => s
  | .undef => "undefined"

/-- JavaScript truthiness of the values above: `0`, `""` and `undefined`
are falsy, every other number or string is truthy. -/
def JsVal.truthy : JsVal → Bool
  | .num n => n != 0
  | .str s => s != ""
  | .undef => false

/- ===== useWebSocket.js ===== -/

/-- The WebSocket `readyState` constants. -/
inductive ReadyState where
  | CONNECTING
  | OPEN
  | CLOSING
  | CLOSED
deriving DecidableEq, Repr

/-- `const wsProtocol = window.location.protocol === 'https:' ? 'wss:' : 'ws:'` -/
def wsProtocolFor (pageProtocol : String) : String :=
  if pageProtocol = "https:" then "wss:" else "ws:"

/-- The URL built by `connect`:
`` `${wsProtocol}//${wsHost}:${wsPort}/ws/${agentId}/${sector}` `` with
`wsPort = '8002'`; template-literal interpolation is JavaScript `String(·)`. -/
def buildWsUrl (pageProtocol wsHost : String) (agentId sector : JsVal) : String :=
  wsProtocolFor pageProtocol ++ "//" ++ wsHost ++ ":8002/ws/"
    ++ agentId.toStr ++ "/" ++ sector.toStr

/-- The guarded connection attempt of `connect`:
`if (!agentId || !sector) return;` and otherwise `new WebSocket(wsUrl)`.
Returns the URL the socket is opened at, or `none` when no attempt is made. -/
def connectUrl (pageProtocol wsHost : String) (agentId sector : JsVal) : Option String :=
  if ¬ agentId.truthy ∨ ¬ sector.truthy then none
  else some (buildWsUrl pageProtocol wsHost agentId sector)

/-- The payload of the heartbeat probe, `{ type: 'ping' }`, as the list of
its key/value pairs. -/
def pingPayload : List (String × String) := [("type", "ping")]

/-- `JSON.stringify` on a flat object whose values are strings. -/
def jsonStringifyStrObj (ps : List (String × String)) : String :=
  "\x7b"
    ++ String.intercalate ","
        (ps.map (fun p => "\"" ++ p.1 ++ "\":\"" ++ p.2 ++ "\""))
    ++ "\x7d"

/-- The exact string the client sends as its liveness probe. -/
def pingString : String := jsonStringifyStrObj pingPayload

/-- The heartbeat interval started in `ws.onopen`: `setInterval(..., 30000)`. -/
def pingIntervalMs : Nat := 30000

/-- One tick of the heartbeat interval:
`if (ws.readyState === WebSocket.OPEN) ws.send(JSON.stringify({type:'ping'}))`.
Returns the frame sent, or `none` when nothing is sent. -/
def pingTick (readyState : ReadyState) : Option String :=
  if readyState = .OPEN then some pingString else none

/-- The reconnect backoff used in `ws.onclose`: `setTimeout(connect, 3000)`. -/
def reconnectDelayMs : Nat := 3000

/-- The effects of the `ws.onclose` handler. -/
structure CloseEffects where
  /-- whether `clearInterval(ws._pingInterval)` ran -/
  clearedPingTimer : Bool
  /-- the delay of the scheduled reconnect, `none` when none is scheduled -/
  reconnectDelay : Option Nat
deriving DecidableEq, Repr

/-- The `ws.onclose` handler: clears the ping interval when one was set
(`if (ws._pingInterval) clearInterval(...)`), and schedules `connect` after
3000 ms unless the close was a normal one
(`if (event.code !== 1000) { ... setTimeout(connect, 3000) }`). -/
def onclose (hasPingTimer : Bool) (closeCode : Nat) : CloseEffects :=
  { clearedPingTimer := hasPingTimer
  , reconnectDelay := if closeCode ≠ 1000 then some reconnectDelayMs else none }

/-- The close code the cleanup effect uses on teardown:
`wsRef.current.close(1000, 'Component unmounting')`. -/
def unmountCloseCode : Nat := 1000

/-- Observable client actions, used to describe what the connect / reconnect
path and the dashboard polling do. -/
inductive ClientAction where
  /-- `new WebSocket(url)`: opening (hence re-registering) a live connection -/
  | openSocket (url : String)
  /-- `setInterval` of the heartbeat, with its period in ms -/
  | startPingTimer (intervalMs : Nat)
  /-- `conversationsService.list(...)`: fetch the conversation list -/
  | requestConversationList
  /-- `conversationsService.getQueue()`: fetch the queue snapshot with counts -/
  | requestQueueSnapshot
deriving DecidableEq, Repr

/-- The actions performed by the body of `connect` up to handler installation:
the guarded socket opening only; no data request is issued there. -/
def connectActions (pageProtocol wsHost : String) (agentId sector : JsVal) :
    List ClientAction :=
  match connectUrl pageProtocol wsHost agentId sector with
  | some url => [.openSocket url]
  | none => []

/-- The actions performed by the `ws.onopen` handler: it only starts the
heartbeat interval. -/
def onopenActions : List ClientAction := [.startPingTimer pingIntervalMs]

/-- Everything the client does on the reconnect path: the `setTimeout`
callback calls `connect`, and once the new socket opens `ws.onopen` runs. -/
def reconnectActions (pageProtocol wsHost : String) (agentId sector : JsVal) :
    List ClientAction :=
  connectActions pageProtocol wsHost agentId sector ++ onopenActions

end CrmGbi

namespace CrmGbi

/- ===== Dashboard.jsx ===== -/

/-- A chat message as the dashboard stores it (`id` and the fields it
renders; only `id` matters for the duplicate check `m.id === data.message.id`). -/
structure Message where
  id : Nat
  content : String
deriving DecidableEq, Repr

/-- A WebSocket event as consumed by `handleWebSocketMessage`: its `type`
tag, and the payload fields the handler reads (`conversation_id` and
`message` for `new_message`, `queue_sizes` for `queue_update`; an absent
field is `JsVal.undef` / `none`). -/
structure WsEvent where
  type : String
  conversation_id : JsVal
  message : Message
  queue_sizes : Option (List (String × Nat))
deriving DecidableEq, Repr

/-- The dashboard state touched by the handler: the id of the selected
(open) conversation if any (`selectedConversationRef.current?.id`), the
displayed message list, and the per-sector queue sizes. -/
structure DashState where
  selectedConversationId : Option JsVal
  messages : List Message
  queueSizes : List (String × Nat)
deriving DecidableEq, Repr

/-- Side requests the handler issues besides state updates. -/
inductive DashAction where
  /-- `loadConversations()` -/
  | reloadConversations
deriving DecidableEq, Repr

/-- The `setMessages` updater of the `new_message` branch:
`prev.some(m => m.id === data.message.id) ? prev : [...prev, data.message]`. -/
def appendIfNew (prev : List Message) (m : Message) : List Message :=
  if prev.any (fun p => p.id = m.id) then prev else prev ++ [m]

/-- `Dashboard.handleWebSocketMessage`: on `new_message`, if the open
conversation's id is truthy and `String(currentConvId) === String(messageConvId)`,
append the message unless its id is already present, then reload the
conversation list; on `new_conversation`, reload the conversation list;
on `queue_update`, replace the queue sizes with `data.queue_sizes || {}`. -/
def handleWebSocketMessage (data : WsEvent) (s : DashState) :
    DashState × List DashAction :=
  if data.type = "new_message" then
    let currentConvId := s.selectedConversationId.getD .undef
    let s1 :=
      if currentConvId.truthy ∧ currentConvId.toStr = data.conversation_id.toStr then
        { s with messages := appendIfNew s.messages data.message }
      else s
    (s1, [.reloadConversations])
  else if data.type = "new_conversation" then
    (s, [.reloadConversations])
  else if data.type = "queue_update" then
    ({ s with queueSizes := data.queue_sizes.getD [] }, [])
  else
    (s, [])

/-- The queue badge total:
`Object.values(queueSizes).reduce((a, b) => a + b, 0)`. -/
def totalQueue (queueSizes : List (String × Nat)) : Nat :=
  (queueSizes.map Prod.snd).sum

/-- The dashboard's conversation polling period:
`setInterval(loadConversations, 10000)`. -/
def conversationPollIntervalMs : Nat := 10000

/-- The request `loadConversations` issues: the queue snapshot (with its
`queue_sizes` counts) when the queue tab is active, otherwise the
conversation list. -/
def loadConversationsActions (activeTab : String) : List ClientAction :=
  if activeTab = "queue" then [.requestQueueSnapshot]
  else [.requestConversationList]

end CrmGbi

namespace CrmGbi

/- ===== Theorems: C1, C3, C8 ===== -/

/-- C1: for every WebSocket close event, a reconnect is scheduled after a
fixed 3000 ms backoff if and only if the close code is not 1000; the
graceful close the client issues on teardown uses code 1000 and therefore
never schedules a reconnect. -/
theorem c1_reconnect_iff_abnormal_close :
    (∀ hasPingTimer closeCode,
        (onclose hasPingTimer closeCode).reconnectDelay = some 3000 ↔
          closeCode ≠ 1000)
    ∧ unmountCloseCode = 1000
    ∧ ∀ hasPingTimer,
        (onclose hasPingTimer unmountCloseCode).reconnectDelay = none := by
  refine ⟨fun hp code => ?_, rfl, fun hp => rfl⟩
  by_cases h : code = 1000 <;> simp [onclose, reconnectDelayMs, h]

/-- Witness for C1 at concrete close codes: an abnormal close (1006)
schedules the 3000 ms reconnect. -/
theorem c1_witness :
    (onclose true 1006).reconnectDelay = some 3000 :=
  (c1_reconnect_iff_abnormal_close.1 true 1006).mpr (by decide)

/-- C3: while connected the client sends the probe
`JSON.stringify({type: 'ping'})` on a fixed 30000 ms interval, a tick sends
it exactly when the socket readyState is OPEN, and the `onclose` handler
clears the started probe timer. -/
theorem c3_heartbeat :
    pingIntervalMs = 30000
    ∧ pingString = "\x7b\"type\":\"ping\"\x7d"
    ∧ (∀ st, pingTick st = some pingString ↔ st = .OPEN)
    ∧ ∀ closeCode, (onclose true closeCode).clearedPingTimer = true := by
  refine ⟨rfl, rfl, fun st => ?_, fun code => rfl⟩
  cases st <;> simp [pingTick]

/-- Witness for C3 at a concrete readyState: a tick over an OPEN socket
sends exactly the ping frame. -/
theorem c3_witness :
    pingTick ReadyState.OPEN = some "\x7b\"type\":\"ping\"\x7d" := by
  have h := (c3_heartbeat.2.2.1 ReadyState.OPEN).mpr rfl
  rwa [c3_heartbeat.2.1] at h

/-- C8: a connection attempt is made only with both `agentId` and `sector`
supplied (truthy), and every attempt targets
`/ws/{agentId}/{sector}` on the page host, with `wss:` exactly when the
page protocol is `https:` and `ws:` otherwise. -/
theorem c8_connect_url :
    (∀ p h a s, (¬ a.truthy ∨ ¬ s.truthy) → connectUrl p h a s = none)
    ∧ ∀ p h a s url, connectUrl p h a s = some url →
        url = (if p = "https:" then "wss:" else "ws:")
          ++ "//" ++ h ++ ":8002/ws/" ++ a.toStr ++ "/" ++ s.toStr := by
  constructor
  · intro p h a s hmiss
    unfold connectUrl
    rw [if_pos hmiss]
  · intro p h a s url hurl
    unfold connectUrl at hurl
    split at hurl
    · cases hurl
    · injection hurl with hurl
      rw [← hurl]
      rfl

/-- Witness for C8: with `agent_id` missing no attempt is made, and with the
pair (7, comercial) on an http page the socket targets
`ws://localhost:8002/ws/7/comercial`. -/
theorem c8_witness :
    connectUrl "http:" "localhost" JsVal.undef (JsVal.str "comercial") = none
    ∧ "ws://localhost:8002/ws/7/comercial" =
        (if "http:" = "https:" then "wss:" else "ws:")
          ++ "//" ++ "localhost" ++ ":8002/ws/"
          ++ (JsVal.num 7).toStr ++ "/" ++ (JsVal.str "comercial").toStr := by
  constructor
  · exact c8_connect_url.1 "http:" "localhost" JsVal.undef (JsVal.str "comercial")
      (by decide)
  · exact c8_connect_url.2 "http:" "localhost" (JsVal.num 7) (JsVal.str "comercial")
      "ws://localhost:8002/ws/7/comercial" (by rfl)

/- ===== Theorems: C2, C6, C7 ===== -/

/-- C2 counterexample: on a concrete reconnect (agent 1, sector comercial,
http page on localhost) the complete reconnect path — the `setTimeout`
callback running `connect` followed by the `ws.onopen` handler — only
re-opens the socket and restarts the heartbeat; no conversation-list or
queue-snapshot request is issued as part of the reconnect, contradicting
the claim that a full snapshot is re-requested as part of it. -/
theorem c2_counterexample :
    reconnectActions "http:" "localhost" (JsVal.num 1) (JsVal.str "comercial") =
      [ClientAction.openSocket "ws://localhost:8002/ws/1/comercial",
       ClientAction.startPingTimer 30000]
    ∧ ClientAction.requestConversationList ∉
        reconnectActions "http:" "localhost" (JsVal.num 1) (JsVal.str "comercial")
    ∧ ClientAction.requestQueueSnapshot ∉
        reconnectActions "http:" "localhost" (JsVal.num 1) (JsVal.str "comercial") := by
  refine ⟨by decide, by decide, by decide⟩

/-- C2 (amended): on reconnect after a non-graceful disconnect the client
re-registers by opening a fresh socket at `/ws/{agent_id}/{sector}` (and
restarts its heartbeat) but requests no snapshot as part of the reconnect;
state is instead reconciled by the dashboard's independent fixed 10000 ms
poll, which fetches the conversation list (or, when the queue tab is
active, the queue snapshot with its per-sector counts). -/
theorem c2_reconnect_reregisters_poll_reconciles
    (p h : String) (a s : JsVal)
    (ha : a.truthy = true) (hs : s.truthy = true) :
    reconnectActions p h a s =
      [ClientAction.openSocket (buildWsUrl p h a s),
       ClientAction.startPingTimer 30000]
    ∧ conversationPollIntervalMs = 10000
    ∧ loadConversationsActions "all" = [ClientAction.requestConversationList]
    ∧ loadConversationsActions "queue" = [ClientAction.requestQueueSnapshot]
    ∧ ClientAction.requestConversationList ∉ reconnectActions p h a s
    ∧ ClientAction.requestQueueSnapshot ∉ reconnectActions p h a s := by
  have hconn : connectUrl p h a s = some (buildWsUrl p h a s) := by
    unfold connectUrl
    rw [if_neg]
    simp [ha, hs]
  have hacts : reconnectActions p h a s =
      [ClientAction.openSocket (buildWsUrl p h a s),
       ClientAction.startPingTimer 30000] := by
    simp [reconnectActions, connectActions, hconn, onopenActions, pingIntervalMs]
  refine ⟨hacts, rfl, rfl, rfl, ?_, ?_⟩ <;> rw [hacts] <;> simp

/-- Witness for the amended C2 at a concrete reconnect (agent 4, sector rh,
https page). -/
theorem c2_witness :
    reconnectActions "https:" "crm.example" (JsVal.num 4) (JsVal.str "rh") =
      [ClientAction.openSocket "wss://crm.example:8002/ws/4/rh",
       ClientAction.startPingTimer 30000] := by
  have h := (c2_reconnect_reregisters_poll_reconciles "https:" "crm.example"
      (JsVal.num 4) (JsVal.str "rh") (by decide) (by decide)).1
  rw [h]
  rfl

/-- Relates the handler's duplicate check `prev.some(m => m.id === ...)`
to membership of the id among the listed message ids. -/
theorem any_id_eq_mem (l : List Message) (n : Nat) :
    (l.any fun p => p.id = n) = true ↔ n ∈ l.map Message.id := by
  rw [List.any_eq_true]
  constructor
  · rintro ⟨p, hp, hid⟩
    simp only [decide_eq_true_eq] at hid
    exact hid ▸ List.mem_map_of_mem Message.id hp
  · intro hmem
    rcases List.mem_map.mp hmem with ⟨p, hp, hid⟩
    exact ⟨p, hp, by simp [hid]⟩

/-- C6: a `queue_update` event replaces the per-sector queue-size state with
the event's `queue_sizes` mapping (the empty mapping when absent), the
queue badge total is the sum of the per-sector counts, and a
`new_conversation` event reloads the conversation list. -/
theorem c6_queue_update_and_new_conversation (data : WsEvent) (s : DashState) :
    (data.type = "queue_update" →
        handleWebSocketMessage data s =
          ({ s with queueSizes := data.queue_sizes.getD [] }, []))
    ∧ (∀ qs, data.type = "queue_update" → data.queue_sizes = some qs →
        totalQueue (handleWebSocketMessage data s).1.queueSizes =
          (qs.map Prod.snd).sum)
    ∧ (data.type = "new_conversation" →
        handleWebSocketMessage data s = (s, [DashAction.reloadConversations])) := by
  refine ⟨fun ht => ?_, fun qs ht hq => ?_, fun ht => ?_⟩
  · simp [handleWebSocketMessage, ht]
  · simp [handleWebSocketMessage, ht, hq, totalQueue]
  · simp [handleWebSocketMessage, ht]

/-- Witness for C6: a concrete `queue_update` event carrying counts 2 and 1
replaces the stored sizes and yields badge total 3. -/
theorem c6_witness :
    handleWebSocketMessage
        ⟨"queue_update", JsVal.undef, ⟨0, ""⟩, some [("comercial", 2), ("rh", 1)]⟩
        ⟨none, [], [("comercial", 7)]⟩ =
      (⟨none, [], [("comercial", 2), ("rh", 1)]⟩, [])
    ∧ totalQueue (handleWebSocketMessage
        ⟨"queue_update", JsVal.undef, ⟨0, ""⟩, some [("comercial", 2), ("rh", 1)]⟩
        ⟨none, [], [("comercial", 7)]⟩).1.queueSizes = 3 := by
  have h := c6_queue_update_and_new_conversation
    ⟨"queue_update", JsVal.undef, ⟨0, ""⟩, some [("comercial", 2), ("rh", 1)]⟩
    ⟨none, [], [("comercial", 7)]⟩
  exact ⟨h.1 rfl, h.2.1 [("comercial", 2), ("rh", 1)] rfl rfl⟩

/-- C7 counterexample: with the open conversation's id being the number 0
(a falsy value) and a `new_message` event for conversation id 0, the two
ids agree under string comparison and the message id 1 is not yet in the
(empty) list, yet the handler leaves the message list unchanged instead of
appending — the append does not happen whenever string comparison succeeds,
because the code first requires the open conversation's id to be truthy. -/
theorem c7_counterexample :
    (DashState.mk (some (JsVal.num 0)) [] []).selectedConversationId =
        some (JsVal.num 0)
    ∧ (JsVal.num 0).toStr =
        (WsEvent.mk "new_message" (JsVal.num 0) ⟨1, "hello"⟩ none).conversation_id.toStr
    ∧ ((DashState.mk (some (JsVal.num 0)) [] []).messages.any
        fun p => p.id = (1 : Nat)) = false
    ∧ (handleWebSocketMessage
        (WsEvent.mk "new_message" (JsVal.num 0) ⟨1, "hello"⟩ none)
        (DashState.mk (some (JsVal.num 0)) [] [])).1.messages = [] := by
  refine ⟨rfl, by decide, by decide, by decide⟩

/-- C7 (amended): for every `new_message` event received while a
conversation is open, the event's message is appended at the tail of the
displayed list if and only if the open conversation's id is truthy and the
two conversation ids agree under string comparison; when a message with the
same id is already listed the list is unchanged, and on an id mismatch the
list is unchanged. -/
theorem c7_new_message_append (s : DashState) (data : WsEvent) (cid : JsVal)
    (ht : data.type = "new_message")
    (hsel : s.selectedConversationId = some cid) :
    ((cid.truthy ∧ cid.toStr = data.conversation_id.toStr) →
        (handleWebSocketMessage data s).1.messages =
          if data.message.id ∈ s.messages.map Message.id then s.messages
          else s.messages ++ [data.message])
    ∧ (¬ (cid.truthy ∧ cid.toStr = data.conversation_id.toStr) →
        (handleWebSocketMessage data s).1.messages = s.messages) := by
  constructor
  · intro hmatch
    simp only [handleWebSocketMessage, ht, hsel, Option.getD_some]
    rw [if_pos hmatch]
    simp only [appendIfNew]
    by_cases hmem : data.message.id ∈ s.messages.map Message.id
    · rw [if_pos ((any_id_eq_mem s.messages data.message.id).mpr hmem),
        if_pos hmem]
      simp
    · rw [if_neg fun hc => hmem ((any_id_eq_mem s.messages data.message.id).mp hc),
        if_neg hmem]
      simp
  · intro hmatch
    simp only [handleWebSocketMessage, ht, hsel, Option.getD_some]
    rw [if_neg hmatch]
    simp

/-- Witness for the amended C7: with conversation 5 open, a `new_message`
event for conversation id "5" appends its fresh message at the tail. -/
theorem c7_witness :
    (handleWebSocketMessage
        (WsEvent.mk "new_message" (JsVal.str "5") ⟨2, "b"⟩ none)
        (DashState.mk (some (JsVal.num 5)) [⟨1, "a"⟩] [])).1.messages =
      [⟨1, "a"⟩, ⟨2, "b"⟩] := by
  have h := (c7_new_message_append
      (DashState.mk (some (JsVal.num 5)) [⟨1, "a"⟩] [])
      (WsEvent.mk "new_message" (JsVal.str "5") ⟨2, "b"⟩ none)
      (JsVal.num 5) rfl rfl).1 (by decide)
  simpa using h

end CrmGbi

namespace CrmGbi

/- ===== Conversation lifecycle (backend, described by the design spec) ===== -/

/-- The conversation status values. -/
inductive ConvStatus where
  | bot_handling
  | waiting_queue
  | in_progress
  | resolved
  | closed
deriving DecidableEq, Repr

/-- A conversation record: identity, sector, status and the nullable
assigned agent. -/
structure Conversation where
  id : Nat
  sector : String
  status : ConvStatus
  assigned_agent : Option Nat
deriving DecidableEq, Repr

/-- The structured errors of the conversation operations. -/
inductive SvcError where
  | AlreadyClaimed
  | PermissionDenied
  | InvalidStateTransition
  | NotFound
deriving DecidableEq, Repr

/-- Modelled from the spec: the backend behind
`conversationsService.accept` (`POST /api/conversations/{id}/accept`) is
not among the frontend sources; per the spec's claim protocol
(`dequeue_for_claim` plus the `waiting_queue → in_progress` transition),
the claim atomically checks the conversation is still in `waiting_queue`
and then removes it from its queue and assigns the claiming agent; when
another claim already won the race the conversation is no longer waiting
and the attempt fails with `AlreadyClaimed`, mutating nothing. -/
def claimWaiting (agent : Nat) (c : Conversation) :
    Except SvcError Conversation :=
  if c.status = .waiting_queue then
    .ok { c with status := .in_progress, assigned_agent := some agent }
  else
    .error .AlreadyClaimed

/-- Modelled from the spec: the backend behind
`conversationsService.resolve` (`POST /api/conversations/{id}/resolve`) is
not among the frontend sources; per the spec the `in_progress → resolved`
transition is performed only by the assigned agent, a non-assigned agent's
request fails with `PermissionDenied`, and a request from any other state
fails with `InvalidStateTransition`; a failed request mutates nothing. -/
def resolveConv (agent : Nat) (c : Conversation) :
    Except SvcError Conversation :=
  match c.status with
  | .in_progress =>
      if c.assigned_agent = some agent then
        .ok { c with status := .resolved }
      else
        .error .PermissionDenied
  | _ => .error .InvalidStateTransition

/-- A run of claim attempts against one conversation. The spec requires the
claim to be one atomic step per conversation, so every concurrent execution
of N attempts is equivalent to executing them one after another in the
order their atomic sections were granted; each failed attempt leaves the
conversation as it was. -/
def runClaims (agents : List Nat) (c : Conversation) :
    List (Except SvcError Conversation) × Conversation :=
  match agents with
  | [] => ([], c)
  | a :: rest =>
      match claimWaiting a c with
      | .ok c1 =>
          let r := runClaims rest c1
          (.ok c1 :: r.1, r.2)
      | .error e =>
          let r := runClaims rest c
          (.error e :: r.1, r.2)

/-- Whether a claim outcome is a success. -/
def claimOk : Except SvcError Conversation → Bool
  | .ok _ => true
  | .error _ => false

/-- Whether a claim outcome is an `AlreadyClaimed` failure. -/
def claimLost : Except SvcError Conversation → Bool
  | .error .AlreadyClaimed => true
  | _ => false

/-- Once a conversation is no longer `waiting_queue`, every further claim
attempt fails with `AlreadyClaimed` and the conversation is unchanged. -/
theorem runClaims_not_waiting (agents : List Nat) (c : Conversation)
    (h : c.status ≠ .waiting_queue) :
    runClaims agents c =
      (agents.map fun _ => .error .AlreadyClaimed, c) := by
  induction agents with
  | nil => rfl
  | cons a rest ih =>
      simp [runClaims, claimWaiting, h, ih]

end CrmGbi

namespace CrmGbi

/- ===== Theorems: C4, C5 ===== -/

/-- C4: for a `waiting_queue` conversation and N concurrent claim attempts
by different agents — serialized in some order `w :: rest` by the required
per-conversation atomic section — the first attempt in that order succeeds,
every other attempt fails with `AlreadyClaimed`, and the conversation ends
`in_progress` with `assigned_agent` the single winner; in counts, exactly
one of the N outcomes is a success and N−1 are `AlreadyClaimed`. -/
theorem c4_claim_race (c : Conversation) (w : Nat) (rest : List Nat)
    (h : c.status = ConvStatus.waiting_queue) :
    runClaims (w :: rest) c =
      (.ok { c with status := .in_progress, assigned_agent := some w }
          :: rest.map (fun _ => .error .AlreadyClaimed),
        { c with status := .in_progress, assigned_agent := some w })
    ∧ ((runClaims (w :: rest) c).1.countP claimOk = 1
        ∧ (runClaims (w :: rest) c).1.countP claimLost = rest.length) := by
  have hw : claimWaiting w c =
      .ok { c with status := .in_progress, assigned_agent := some w } := by
    simp [claimWaiting, h]
  have hrest := runClaims_not_waiting rest
    { c with status := .in_progress, assigned_agent := some w } (by simp)
  have hrun : runClaims (w :: rest) c =
      (.ok { c with status := .in_progress, assigned_agent := some w }
          :: rest.map (fun _ => .error .AlreadyClaimed),
        { c with status := .in_progress, assigned_agent := some w }) := by
    simp [runClaims, hw, hrest]
  refine ⟨hrun, ?_, ?_⟩ <;> rw [hrun] <;>
    simp [List.countP_cons, List.countP_map, claimOk, claimLost, Function.comp,
      List.countP_eq_length_filter, List.filter_true]

/-- Witness for C4: three agents race for waiting conversation 1; agent 7,
first through the atomic section, wins, agents 8 and 9 get
`AlreadyClaimed`, and the conversation ends `in_progress` assigned to 7. -/
theorem c4_witness :
    runClaims [7, 8, 9] ⟨1, "comercial", ConvStatus.waiting_queue, none⟩ =
      (.ok ⟨1, "comercial", ConvStatus.in_progress, some 7⟩
          :: [.error SvcError.AlreadyClaimed, .error SvcError.AlreadyClaimed],
        ⟨1, "comercial", ConvStatus.in_progress, some 7⟩) := by
  have h := (c4_claim_race ⟨1, "comercial", ConvStatus.waiting_queue, none⟩
      7 [8, 9] rfl).1
  simpa using h

/-- C5: for a conversation `in_progress` and assigned to agent `a`, a
resolve request by an agent `b` fails with `PermissionDenied` exactly when
`b` is not the assigned agent (so the conversation is left as it was,
still `in_progress`), and the assigned agent's request performs the
`in_progress → resolved` transition. -/
theorem c5_resolve_permission (c : Conversation) (a b : Nat)
    (hs : c.status = ConvStatus.in_progress)
    (ha : c.assigned_agent = some a) :
    (resolveConv b c = .error SvcError.PermissionDenied ↔ b ≠ a)
    ∧ resolveConv a c = .ok { c with status := ConvStatus.resolved } := by
  constructor
  · constructor
    · intro hres hba
      rw [hba] at hres
      simp [resolveConv, hs, ha] at hres
    · intro hba
      have hne : c.assigned_agent ≠ some b := by
        rw [ha]
        intro hcon
        exact hba (Option.some_injective Nat hcon).symm
      simp [resolveConv, hs, hne]
  · simp [resolveConv, hs, ha]

/-- Witness for C5: conversation 1 is `in_progress` assigned to agent 2;
agent 3's resolve fails with `PermissionDenied`, agent 2's resolve
succeeds. -/
theorem c5_witness :
    resolveConv 3 ⟨1, "rh", ConvStatus.in_progress, some 2⟩ =
      .error SvcError.PermissionDenied
    ∧ resolveConv 2 ⟨1, "rh", ConvStatus.in_progress, some 2⟩ =
        .ok ⟨1, "rh", ConvStatus.resolved, some 2⟩ := by
  have h := c5_resolve_permission ⟨1, "rh", ConvStatus.in_progress, some 2⟩
    2 3 rfl rfl
  exact ⟨h.1.mpr (by decide), h.2⟩

end CrmGbi

namespace CrmGbi

/- ===== services/api.js ===== -/

/-- The browser localStorage entries the auth code touches. -/
structure LocalStore where
  token : Option String
  agent : Option String
deriving DecidableEq, Repr

/-- A request configuration as seen by the axios request interceptor:
its header list. -/
structure RequestConfig where
  headers : List (String × String)
deriving DecidableEq, Repr

/-- The api request interceptor:
`const token = localStorage.getItem('token');
if (token) config.headers.Authorization = backtick-Bearer token;
return config;`. -/
def requestInterceptor (store : LocalStore) (config : RequestConfig) :
    RequestConfig :=
  match store.token with
  | some t => { config with
      headers := config.headers ++ [("Authorization", "Bearer " ++ t)] }
  | none => config

/-- `authService.logout`: `try { await api.post('/api/auth/logout') }
catch (e) { console.log(...) }` followed unconditionally by
`localStorage.removeItem('token'); localStorage.removeItem('agent')`.
The server call's outcome is the argument; the catch ignores the error,
so both branches perform the same removals. -/
def logout (serverResult : Except String Unit) (store : LocalStore) :
    LocalStore :=
  match serverResult with
  | .ok _ => { store with token := none, agent := none }
  | .error _ => { store with token := none, agent := none }

/-- The `/api/conversations/stats/summary` response shape, with the
fallback fields of `getStats`. -/
structure StatsSummary where
  by_status : List (String × Nat)
  by_sector : List (String × Nat)
  queues : List (String × Nat)
deriving DecidableEq, Repr

/-- The `/api/messages/conversation/{id}` response shape. -/
structure MessagesData where
  messages : List Message
deriving DecidableEq, Repr

/-- The `/api/agents` and `/api/agents/online` response shape (agents
listed by id). -/
structure AgentsData where
  agents : List Nat
deriving DecidableEq, Repr

/-- `conversationsService.getStats`: returns the response data, and on any
request error returns `{ by_status: {}, by_sector: {}, queues: {} }`
instead of rejecting. -/
def getStats (r : Except String StatsSummary) : StatsSummary :=
  match r with
  | .ok d => d
  | .error _ => { by_status := [], by_sector := [], queues := [] }

/-- `messagesService.getByConversation`: returns the response data, and on
any request error returns `{ messages: [] }` instead of rejecting. -/
def getByConversation (r : Except String MessagesData) : MessagesData :=
  match r with
  | .ok d => d
  | .error _ => { messages := [] }

/-- `agentsService.list`: returns the response data, and on any request
error returns `{ agents: [] }` instead of rejecting. -/
def agentsList (r : Except String AgentsData) : AgentsData :=
  match r with
  | .ok d => d
  | .error _ => { agents := [] }

/-- `agentsService.getOnline`: returns the response data, and on any
request error returns `{ agents: [] }` instead of rejecting. -/
def agentsGetOnline (r : Except String AgentsData) : AgentsData :=
  match r with
  | .ok d => d
  | .error _ => { agents := [] }

end CrmGbi

namespace CrmGbi

/- ===== Theorems: C9, C10 ===== -/

/-- C9: `logout` removes the stored `token` and `agent` entries
unconditionally — also when the server-side logout request failed, its
error being caught and ignored — so any request built after logout passes
through the interceptor without gaining an Authorization header. -/
theorem c9_logout_clears_credentials :
    ∀ serverResult store config,
      (logout serverResult store).token = none
      ∧ (logout serverResult store).agent = none
      ∧ requestInterceptor (logout serverResult store) config = config := by
  intro serverResult store config
  cases serverResult <;> exact ⟨rfl, rfl, rfl⟩

/-- C10: the read-side operations `messagesService.getByConversation`,
`conversationsService.getStats`, `agentsService.list` and
`agentsService.getOnline` are total on request outcomes — a failure is
never propagated — and on every error they resolve to their fixed
empty-shaped defaults. -/
theorem c10_read_side_defaults :
    ∀ e : String,
      getByConversation (.error e) = { messages := [] }
      ∧ getStats (.error e) = { by_status := [], by_sector := [], queues := [] }
      ∧ agentsList (.error e) = { agents := [] }
      ∧ agentsGetOnline (.error e) = { agents := [] } := by
  intro e
  exact ⟨rfl, rfl, rfl, rfl⟩

end CrmGbi
